import Mathlib

/-!
Verification development for the newsletter HTML generation engine of
`src/app.py` (classes `ImageProcessor` and `NewsletterGenerator`, plus the
layer-sorting step of `main`).

The Python code is shallowly embedded: every renderer builds a `List String`
of HTML fragments exactly as the Python code appends to `html_parts`
(one Lean list element per Python `append`, with adjacent f-strings that the
Python source juxtaposes into a single list element kept as a single string),
and the final document is the `'\n'.join` of those parts.  Dynamic
dict-shaped configuration (`cfg.get(key, default)`) is embedded as records
of `Option`-typed fields, resolved with `Option.getD` at exactly the places
the Python code calls `.get`.  Python string primitives (`strip`, `lower`,
`replace`, `in`, truthiness) are modelled by executable functions over
`String.data` below.
-/

/-- Python `str.strip()` default whitespace set (ASCII part). -/
def pyIsSpace (c : Char) : Bool :=
  c == ' ' || c == '\t' || c == '\n' || c == '\r' || c == '\x0b' || c == '\x0c'

/-- Python `s.strip()`: drop leading and trailing whitespace. -/
def pyStrip (s : String) : String :=
  ⟨((s.data.dropWhile pyIsSpace).reverse.dropWhile pyIsSpace).reverse⟩

/-- Lower-case a single ASCII letter (identity elsewhere). -/
def lowerChar (c : Char) : Char :=
  if 'A' ≤ c && c ≤ 'Z' then Char.ofNat (c.toNat + 32) else c

/-- Python `s.lower()` (ASCII; the code only lowers `'Left'`/`'Right'` etc.). -/
def pyLower (s : String) : String := ⟨s.data.map lowerChar⟩

/-- Does `needle` occur as a contiguous sublist of the second argument? -/
def subOccursList (needle : List Char) : List Char → Bool
  | [] => needle.isEmpty
  | c :: rest => needle.isPrefixOf (c :: rest) || subOccursList needle rest

/-- Python substring test `needle in hay`. -/
def pyInStr (needle hay : String) : Bool := subOccursList needle.data hay.data

/-- Replace the leftmost occurrences of a non-empty needle, left to right,
with enough fuel to scan the whole haystack. -/
def replaceFuel (needle repl : List Char) : Nat → List Char → List Char
  | 0, hay => hay
  | _ + 1, [] => []
  | fuel + 1, c :: rest =>
    if needle.isPrefixOf (c :: rest) then
      repl ++ replaceFuel needle repl fuel ((c :: rest).drop needle.length)
    else c :: replaceFuel needle repl fuel rest

/-- Python `s.replace(needle, repl)` (non-overlapping, left to right). -/
def pyReplace (s needle repl : String) : String :=
  match needle.data with
  | [] => s
  | _ :: _ => ⟨replaceFuel needle.data repl.data s.data.length s.data⟩

/-- Python truthiness of an optional string: `None` and `''` are falsy. -/
def strOptTruthy : Option String → Bool
  | some s => s != ""
  | none => false

/-- Keep an optional string only when it is Python-truthy
(models `x if x else None` selection on dict-stored strings). -/
def optNonempty : Option String → Option String
  | some s => if s != "" then some s else none
  | none => none

/-- Python `'\n'.join(parts)`, used at the end of `generate_html`. -/
def joinN : List String → String
  | [] => ""
  | [s] => s
  | s :: rest => s ++ "\n" ++ joinN rest

/-!  Layer configuration dictionary (`render_layer_form` return shape),
with the fields `_generate_layer_html` reads via `.get`. -/

structure Layer where
  order : Option Int := none
  padding : Option Int := none
  image_alignment : Option String := none
  image_url : Option String := none
  image_base64 : Option String := none
  image_width : Option Int := none
  title : Option String := none
  subtitle : Option String := none
  subtitle2 : Option String := none
  content : Option String := none
  title_color : Option String := none
  subtitle_color : Option String := none
  subtitle2_color : Option String := none
  content_color : Option String := none
  title_font_size : Option Int := none
  subtitle_font_size : Option Int := none
  subtitle2_font_size : Option Int := none
  content_font_size : Option Int := none
  title_bold : Option Bool := none
  subtitle_bold : Option Bool := none
  subtitle2_bold : Option Bool := none
  link_url : Option String := none
deriving DecidableEq

/-- Image-source resolution of `_generate_layer_html` (app.py lines 343-352):
`if image_url and image_url.strip(): image_src = image_url.strip()
 elif image_base64: image_src = image_base64 else: image_src = None`. -/
def layerImageSrc (layer : Layer) : Option String :=
  match layer.image_url with
  | some u => if u != "" && pyStrip u != "" then some (pyStrip u) else optNonempty layer.image_base64
  | none => optNonempty layer.image_base64

/-- Body of `_generate_layer_text` (app.py lines 478-532), transcribed. -/
def _generate_layer_text (title subtitle subtitle2 content : String)
    (title_color subtitle_color subtitle2_color content_color : String)
    (title_font_size subtitle_font_size subtitle2_font_size content_font_size : Int)
    (title_bold subtitle_bold subtitle2_bold : Bool) : List String :=
  let title_weight := if title_bold then "700" else "400"
  let subtitle_weight := if subtitle_bold then "600" else "400"
  let subtitle2_weight := if subtitle2_bold then "500" else "400"
  (if title != "" then
    ["<h2 style=\"color: " ++ title_color ++ "; margin: 0 0 10px 0; font-size: " ++
      toString title_font_size ++ "px; font-weight: " ++ title_weight ++
      "; line-height: 1.2;\">" ++ title ++ "</h2>"]
   else []) ++
  (if subtitle != "" then
    ["<h3 style=\"color: " ++ subtitle_color ++ "; margin: 0 0 10px 0; font-size: " ++
      toString subtitle_font_size ++ "px; font-weight: " ++ subtitle_weight ++
      "; line-height: 1.4;\">" ++ subtitle ++ "</h3>"]
   else []) ++
  (if subtitle2 != "" then
    ["<h4 style=\"color: " ++ subtitle2_color ++ "; margin: 0 0 15px 0; font-size: " ++
      toString subtitle2_font_size ++ "px; font-weight: " ++ subtitle2_weight ++
      "; line-height: 1.4;\">" ++ subtitle2 ++ "</h4>"]
   else []) ++
  (if content != "" then
    (if content.data.contains '<' && content.data.contains '>' then
      ["<div style=\"color: " ++ content_color ++ "; font-size: " ++
        toString content_font_size ++ "px; margin: 0; line-height: 1.5;\">",
       content,
       "</div>"]
     else
      ["<p style=\"color: " ++ content_color ++ "; margin: 0; font-size: " ++
        toString content_font_size ++ "px; line-height: 1.5;\">" ++
        pyReplace content "\n" "<br>" ++ "</p>"])
   else [])

/-- The anchor opening tag used to wrap layer cell contents when a link is set. -/
def layerAnchorOpen (link_url : String) : String :=
  "<a href=\"" ++ link_url ++
  "\" target=\"_blank\" rel=\"noopener noreferrer\" style=\"text-decoration: none; color: inherit; display: block;\">"

/-- The `img` tag of a layer (same string in all four emission sites). -/
def layerImg (image_src alt_title : String) (image_width : Int) : String :=
  "<img src=\"" ++ image_src ++ "\" alt=\"" ++ alt_title ++ "\" width=\"" ++
  toString image_width ++ "\" style=\"width: " ++ toString image_width ++
  "px; max-width: 100%; height: auto; display: block; border: 0; outline: none; background-color: transparent;\">"

/-- Opening tag of the left image cell. -/
def tdImgLeft (image_width : Int) : String :=
  "<td style=\"vertical-align: top; padding-right: 20px; width: " ++
  toString image_width ++ "px; background-color: transparent;\">"

/-- Opening tag of the right image cell. -/
def tdImgRight (image_width : Int) : String :=
  "<td style=\"vertical-align: top; width: " ++ toString image_width ++
  "px; background-color: transparent;\">"

/-- Opening tag of the text cell next to a left image. -/
def tdTextPlain : String := "<td style=\"vertical-align: top;\">"

/-- Opening tag of the text cell preceding a right image. -/
def tdTextPadRight : String := "<td style=\"vertical-align: top; padding-right: 20px;\">"

/-- Opening tag of the full-width text cell of the no-image layout. -/
def tdTextFull : String := "<td style=\"vertical-align: top; width: 100%;\">"

/-- One image cell, link-wrapped when a link is present (both Python branches). -/
def imageCell (tdOpen : String) (has_link : Bool) (link_url img : String) : List String :=
  if has_link then [tdOpen, layerAnchorOpen link_url, img, "</a>", "</td>"]
  else [tdOpen, img, "</td>"]

/-- One text cell: the text block, link-wrapped inside the cell when a link is present. -/
def textCell (tdOpen : String) (has_link : Bool) (link_url : String)
    (textParts : List String) : List String :=
  [tdOpen] ++ (if has_link then [layerAnchorOpen link_url] else []) ++ textParts ++
  (if has_link then ["</a>"] else []) ++ ["</td>"]

/-- Resolved text-block fragments of one layer (the `_generate_layer_text` call
of `_generate_layer_html`, with the `.get` defaults of app.py lines 355-373). -/
def layerTextParts (layer : Layer) (text_color : String) : List String :=
  _generate_layer_text (layer.title.getD "") (layer.subtitle.getD "")
    (layer.subtitle2.getD "") (layer.content.getD "")
    (layer.title_color.getD text_color) (layer.subtitle_color.getD "#00925b")
    (layer.subtitle2_color.getD text_color) (layer.content_color.getD "#000000")
    (layer.title_font_size.getD 21) (layer.subtitle_font_size.getD 15)
    (layer.subtitle2_font_size.getD 13) (layer.content_font_size.getD 13)
    (layer.title_bold.getD true) (layer.subtitle_bold.getD true)
    (layer.subtitle2_bold.getD false)

/-- The `alt` text of a layer image: `title or "Layer Image"`. -/
def layerAltTitle (layer : Layer) : String :=
  if layer.title.getD "" != "" then layer.title.getD "" else "Layer Image"

/-- Body of `_generate_layer_html` (app.py lines 327-475), transcribed. -/
def _generate_layer_html (layer : Layer) (text_color : String) : List String :=
  let padding := layer.padding.getD 30
  let image_alignment := pyLower (layer.image_alignment.getD "left")
  let image_src := layerImageSrc layer
  let image_width := layer.image_width.getD 210
  let link_url := pyStrip (layer.link_url.getD "")
  let has_link := link_url != ""
  let textParts := layerTextParts layer text_color
  let alt_title := layerAltTitle layer
  ["<tr>",
   "<td style=\"padding: " ++ toString padding ++ "px 20px;\">",
   "<table role=\"presentation\" style=\"width: 100%; border-collapse: collapse;\">",
   "<tr>"] ++
  (match image_src with
   | some src =>
     if src != "" && pyStrip src != "" && image_alignment == "left" then
       imageCell (tdImgLeft image_width) has_link link_url (layerImg src alt_title image_width) ++
       textCell tdTextPlain has_link link_url textParts
     else if src != "" && pyStrip src != "" && image_alignment == "right" then
       textCell tdTextPadRight has_link link_url textParts ++
       imageCell (tdImgRight image_width) has_link link_url (layerImg src alt_title image_width)
     else
       textCell tdTextFull has_link link_url textParts
   | none => textCell tdTextFull has_link link_url textParts) ++
  ["</tr>", "</table>", "</td>", "</tr>"]

/-!  Header configuration dictionary, with the fields `_generate_header_html` reads. -/

structure HeaderConfig where
  pre_header_text : Option String := none
  header_title : Option String := none
  header_text : Option String := none
  header_image_base64 : Option String := none
  header_image_url : Option String := none
  header_bg_color : Option String := none
  image_width : Option Int := none
  title_font_size : Option Int := none
  title_color : Option String := none
  title_bold : Option Bool := none
  text_font_size : Option Int := none
  text_color : Option String := none
deriving DecidableEq

/-- Image-source resolution of `_generate_header_html` (app.py lines 581-586):
`image_src = None; if header_image_base64: image_src = header_image_base64
 elif header_image_url: image_src = header_image_url`. -/
def headerImageSrc (cfg : HeaderConfig) : Option String :=
  if strOptTruthy cfg.header_image_base64 then cfg.header_image_base64
  else if strOptTruthy cfg.header_image_url then cfg.header_image_url
  else none

/-- The hidden pre-header row block (app.py lines 549-559), emitted only when
the trimmed pre-header text is non-empty. -/
def preHeaderRows (pre_header_text : String) : List String :=
  ["<tr>",
   "<td style=\"padding: 0; font-size: 0; line-height: 0; display: none !important; max-height: 0px; max-width: 0px; opacity: 0; overflow: hidden; mso-hide: all;\">",
   "<span style=\"font-size: 1px; color: #ffffff; line-height: 1px;\">" ++ pre_header_text ++ "</span>",
   "</td>",
   "</tr>"]

/-- The main header rows (app.py lines 561-641): optional image row, blank
spacer row, optional title row (subject fallback), optional body-text row. -/
def headerMainRows (subject : String) (cfg : HeaderConfig) : List String :=
  let header_title0 := pyStrip (cfg.header_title.getD "")
  let header_title := if header_title0 == "" then subject else header_title0
  let header_text := pyStrip (cfg.header_text.getD "")
  let header_bg_color := cfg.header_bg_color.getD "#ffffff"
  let image_width := cfg.image_width.getD 600
  let title_font_size := cfg.title_font_size.getD 28
  let title_color := cfg.title_color.getD "#000000"
  let title_bold := cfg.title_bold.getD true
  let text_font_size := cfg.text_font_size.getD 16
  let text_color := cfg.text_color.getD "#000000"
  let title_weight := if title_bold then "700" else "400"
  (match headerImageSrc cfg with
   | some src =>
     ["<tr>",
      "<td style=\"padding: 0; margin: 0;\">",
      "<img src=\"" ++ src ++ "\" alt=\"" ++ header_title ++
        "\" style=\"width: 100%; max-width: " ++ toString image_width ++
        "px; height: auto; display: block; margin: 0; padding: 0;\">",
      "</td>",
      "</tr>"]
   | none => []) ++
  ["<tr>",
   "<td style=\"padding: 20px 20px; background-color: " ++ header_bg_color ++ ";\">",
   "&nbsp;",
   "</td>",
   "</tr>"] ++
  (if header_title != "" then
    ["<tr>",
     "<td style=\"padding: 0 20px 10px 20px; background-color: " ++ header_bg_color ++ ";\">",
     "<h1 style=\"color: " ++ title_color ++ "; font-size: " ++ toString title_font_size ++
       "px; margin: 0; font-weight: " ++ title_weight ++ "; line-height: 1.3;\">" ++
       header_title ++ "</h1>",
     "</td>",
     "</tr>"]
   else []) ++
  (if header_text != "" then
    ["<tr>",
     "<td style=\"padding: 0 20px 20px 20px; background-color: " ++ header_bg_color ++ ";\">"] ++
    (if header_text.data.contains '<' && header_text.data.contains '>' then
      ["<div style=\"color: " ++ text_color ++ "; font-size: " ++ toString text_font_size ++
         "px; margin: 0; line-height: 1.5;\">",
       header_text,
       "</div>"]
     else
      ["<p style=\"color: " ++ text_color ++ "; font-size: " ++ toString text_font_size ++
         "px; margin: 0; line-height: 1.5;\">" ++ pyReplace header_text "\n" "<br>" ++ "</p>"]) ++
    ["</td>",
     "</tr>"]
   else [])

/-- Body of `_generate_header_html` (app.py lines 534-641): the optional hidden
pre-header rows followed by the main header rows. -/
def _generate_header_html (subject : String) (cfg : HeaderConfig) : List String :=
  (if pyStrip (cfg.pre_header_text.getD "") != "" then
    preHeaderRows (pyStrip (cfg.pre_header_text.getD ""))
   else []) ++
  headerMainRows subject cfg

/-!  Footer configuration dictionary, with the fields `_generate_footer_html` reads. -/

structure FooterConfig where
  footer_bg_color : Option String := none
  footer_image_base64 : Option String := none
  footer_image_url : Option String := none
  footer_image_position : Option String := none
  footer_image_link_url : Option String := none
  image_width : Option Int := none
  footer_alignment : Option String := none
  company_name : Option String := none
  company_name_color : Option String := none
  company_name_size : Option Int := none
  company_name_bold : Option Bool := none
  address : Option String := none
  address_color : Option String := none
  address_size : Option Int := none
  address_bold : Option Bool := none
  directors : Option String := none
  directors_color : Option String := none
  directors_size : Option Int := none
  directors_bold : Option Bool := none
  social_media_type : Option String := none
  social_image_width : Option Int := none
  facebook_url : Option String := none
  facebook_image_base64 : Option String := none
  linkedin_url : Option String := none
  linkedin_image_base64 : Option String := none
  xing_url : Option String := none
  xing_image_base64 : Option String := none
  instagram_url : Option String := none
  instagram_image_base64 : Option String := none
  social_media_label : Option String := none
  social_label_color : Option String := none
  social_label_size : Option Int := none
  social_label_bold : Option Bool := none
deriving DecidableEq

/-- Image-source resolution of `_generate_footer_html` (app.py lines 676-681):
the embedded base64 is checked first, the URL second. -/
def footerImageSrc (cfg : FooterConfig) : Option String :=
  if strOptTruthy cfg.footer_image_base64 then cfg.footer_image_base64
  else if strOptTruthy cfg.footer_image_url then cfg.footer_image_url
  else none

/-- The `_append_footer_image` helper of `_generate_footer_html`
(app.py lines 696-711): nothing when no image source, else a div with the
image, link-wrapped when a non-blank footer image link is configured. -/
def footerImageBlock (cfg : FooterConfig) : List String :=
  match footerImageSrc cfg with
  | none => []
  | some src =>
    let company_name := cfg.company_name.getD ""
    let image_width := cfg.image_width.getD 600
    let link := cfg.footer_image_link_url.getD ""
    let linked := link != "" && pyStrip link != ""
    ["<div style=\"margin-bottom: 20px;\">"] ++
    (if linked then
      ["<a href=\"" ++ link ++ "\" target=\"_blank\" rel=\"noopener noreferrer\" style=\"text-decoration: none; display: inline-block;\">"]
     else []) ++
    ["<img src=\"" ++ src ++ "\" alt=\"" ++
      (if company_name != "" then company_name else "Footer Image") ++ "\" width=\"" ++
      toString image_width ++ "\" style=\"width: " ++ toString image_width ++
      "px; max-width: 100%; height: auto; display: inline-block; border: 0; outline: none; background-color: transparent;\">"] ++
    (if linked then ["</a>"] else []) ++
    ["</div>"]

/-- One social icon cell of the image-mode social row. -/
def socialIconCell (url img alt : String) (social_image_width cell_width : Int) : String :=
  "<td style=\"padding: 0; vertical-align: middle; text-align: center;\" width=\"" ++
  toString cell_width ++ "\">" ++
  "<a href=\"" ++ url ++ "\" target=\"_blank\" rel=\"noopener noreferrer\" style=\"display: inline-block; text-decoration: none;\">" ++
  "<img src=\"" ++ img ++ "\" alt=\"" ++ alt ++ "\" width=\"" ++ toString social_image_width ++
  "\" height=\"" ++ toString social_image_width ++ "\" " ++
  "style=\"width: " ++ toString social_image_width ++ "px !important; height: " ++
  toString social_image_width ++ "px !important; max-width: " ++ toString social_image_width ++
  "px; max-height: " ++ toString social_image_width ++
  "px; border: 0; outline: none; display: block; object-fit: contain;\"></a>" ++
  "</td>"

/-- The fixed-width spacer cell placed between social icons. -/
def socialSpacerCell (spacing_px : Int) : String :=
  "<td style=\"padding: 0; width: " ++ toString spacing_px ++
  "px; font-size: 0; line-height: 0;\" width=\"" ++ toString spacing_px ++ "\">&nbsp;</td>"

/-- One text-mode social link anchor. -/
def socialTextLink (url label : String) : String :=
  "<a href=\"" ++ url ++ "\" target=\"_blank\" rel=\"noopener noreferrer\" style=\"color: #999999; text-decoration: none; margin: 0 10px; display: inline-block;\">" ++
  label ++ "</a>"

/-- The `social_links` list of `_generate_footer_html` (app.py lines 761-823). -/
def footerSocialLinks (cfg : FooterConfig) : List String :=
  let social_media_type := cfg.social_media_type.getD "URLs Only"
  let social_image_width := cfg.social_image_width.getD 30
  let facebook_url := cfg.facebook_url.getD ""
  let linkedin_url := cfg.linkedin_url.getD ""
  let xing_url := cfg.xing_url.getD ""
  let instagram_url := cfg.instagram_url.getD ""
  if social_media_type == "Images" then
    let spacing_px : Int := 10
    let cell_width := social_image_width + 5
    let fbOk := facebook_url != "" && strOptTruthy cfg.facebook_image_base64
    let liOk := linkedin_url != "" && strOptTruthy cfg.linkedin_image_base64
    let xiOk := xing_url != "" && strOptTruthy cfg.xing_image_base64
    let igOk := instagram_url != "" && strOptTruthy cfg.instagram_image_base64
    (if fbOk then
      [socialIconCell facebook_url (cfg.facebook_image_base64.getD "") "Facebook" social_image_width cell_width] ++
      (if liOk || xiOk || igOk then [socialSpacerCell spacing_px] else [])
     else []) ++
    (if liOk then
      [socialIconCell linkedin_url (cfg.linkedin_image_base64.getD "") "LinkedIn" social_image_width cell_width] ++
      (if xiOk || igOk then [socialSpacerCell spacing_px] else [])
     else []) ++
    (if xiOk then
      [socialIconCell xing_url (cfg.xing_image_base64.getD "") "Xing" social_image_width cell_width] ++
      (if igOk then [socialSpacerCell spacing_px] else [])
     else []) ++
    (if igOk then
      [socialIconCell instagram_url (cfg.instagram_image_base64.getD "") "Instagram" social_image_width cell_width]
     else [])
  else
    (if facebook_url != "" then [socialTextLink facebook_url "Facebook"] else []) ++
    (if linkedin_url != "" then [socialTextLink linkedin_url "LinkedIn"] else []) ++
    (if xing_url != "" then [socialTextLink xing_url "Xing"] else []) ++
    (if instagram_url != "" then [socialTextLink instagram_url "Instagram"] else [])

/-- Body of `_generate_footer_html` (app.py lines 643-853), transcribed. -/
def _generate_footer_html (cfg : FooterConfig) : List String :=
  let footer_bg_color := cfg.footer_bg_color.getD "#ffffff"
  let footer_image_position := cfg.footer_image_position.getD "Above Text"
  let footer_alignment := pyLower (cfg.footer_alignment.getD "left")
  let company_name := cfg.company_name.getD ""
  let company_name_color := cfg.company_name_color.getD "#000000"
  let company_name_size := cfg.company_name_size.getD 12
  let company_name_bold := cfg.company_name_bold.getD false
  let address := cfg.address.getD ""
  let address_color := cfg.address_color.getD "#000000"
  let address_size := cfg.address_size.getD 12
  let address_bold := cfg.address_bold.getD false
  let directors := cfg.directors.getD ""
  let directors_color := cfg.directors_color.getD "#000000"
  let directors_size := cfg.directors_size.getD 12
  let directors_bold := cfg.directors_bold.getD false
  let align_style :=
    if footer_alignment == "left" then "text-align: left;"
    else if footer_alignment == "center" then "text-align: center;"
    else if footer_alignment == "right" then "text-align: right;"
    else "text-align: left;"
  let company_name_weight := if company_name_bold then "700" else "400"
  let address_weight := if address_bold then "700" else "400"
  let directors_weight := if directors_bold then "700" else "400"
  let social_media_type := cfg.social_media_type.getD "URLs Only"
  let social_links := footerSocialLinks cfg
  ["<tr>",
   "<td style=\"padding: 30px 20px; background-color: " ++ footer_bg_color ++ "; " ++
     align_style ++ "\">"] ++
  (if footer_image_position == "Above Text" then footerImageBlock cfg else []) ++
  (if company_name != "" || address != "" || directors != "" then
    ["<div style=\"margin-bottom: 15px;\">"] ++
    (if company_name != "" then
      ["<p style=\"color: " ++ company_name_color ++ "; margin: 0 0 10px 0; font-size: " ++
        toString company_name_size ++ "px; font-weight: " ++ company_name_weight ++
        "; line-height: 1.5;\">" ++ company_name ++ "</p>"]
     else []) ++
    (if address != "" then
      ["<p style=\"color: " ++ address_color ++ "; margin: 0 0 10px 0; font-size: " ++
        toString address_size ++ "px; font-weight: " ++ address_weight ++
        "; line-height: 1.5;\">" ++ pyReplace address "\n" "<br>" ++ "</p>"]
     else []) ++
    (if directors != "" then
      ["<p style=\"color: " ++ directors_color ++ "; margin: 0 0 15px 0; font-size: " ++
        toString directors_size ++ "px; font-weight: " ++ directors_weight ++
        "; line-height: 1.5;\">" ++ pyReplace directors "\n" "<br>" ++ "</p>"]
     else []) ++
    ["</div>"]
   else []) ++
  (if footer_image_position == "After Text" then footerImageBlock cfg else []) ++
  (if social_links != [] then
    let social_media_label := cfg.social_media_label.getD "Die Social-Media-Kanäle der bfz gGmbH:"
    let social_label_color := cfg.social_label_color.getD "#000000"
    let social_label_size := cfg.social_label_size.getD 14
    let social_label_bold := cfg.social_label_bold.getD true
    let social_label_weight := if social_label_bold then "700" else "400"
    ["<div style=\"margin-top: 20px;\">"] ++
    (if social_media_label != "" then
      ["<p style=\"color: " ++ social_label_color ++ "; margin: 0 0 10px 0; font-size: " ++
        toString social_label_size ++ "px; font-weight: " ++ social_label_weight ++ ";\">" ++
        social_media_label ++ "</p>"]
     else []) ++
    (if social_media_type == "Images" then
      ["<table cellpadding=\"0\" cellspacing=\"0\" border=\"0\" style=\"border-collapse: collapse; border-spacing: 0;\">",
       "<tr>"] ++ social_links ++ ["</tr>", "</table>"]
     else
      ["<div>"] ++ social_links ++ ["</div>"]) ++
    ["</div>"]
   else []) ++
  ["</td>", "</tr>"]

/-!  Subscription configuration dictionary and renderer. -/

structure SubscriptionConfig where
  footer_color : Option String := none
  disclaimer_text : Option String := none
  company_name : Option String := none
  copyright_text : Option String := none
  address : Option String := none
  unsubscribe_link : Option String := none
  view_online_link : Option String := none
deriving DecidableEq

/-- Body of `_generate_subscription_html` (app.py lines 855-916), transcribed. -/
def _generate_subscription_html (cfg : SubscriptionConfig) : List String :=
  let footer_color := cfg.footer_color.getD "#999999"
  let disclaimer := cfg.disclaimer_text.getD "This email was sent to you because you subscribed to our newsletter."
  let company_name := cfg.company_name.getD "Your Company Name"
  let copyright_text0 := cfg.copyright_text.getD ("© 2024 " ++ company_name ++ ". All rights reserved.")
  let copyright_text :=
    if copyright_text0 != "" && pyInStr "{company}" copyright_text0 then
      pyReplace copyright_text0 "{company}" company_name
    else copyright_text0
  let address := cfg.address.getD "123 Main Street, Suite 400, City, State 12345"
  let unsubscribe_link := cfg.unsubscribe_link.getD "#UNSUBSCRIBE_LINK"
  let view_online_link := cfg.view_online_link.getD "#VIEW_ONLINE_LINK"
  ["<tr>",
   "<td style=\"padding: 20px 20px 10px 20px;\">",
   "<table role=\"presentation\" style=\"width: 100%; border-collapse: collapse;\">",
   "<tr>",
   "<td style=\"height: 1px; background-color: #e0e0e0; line-height: 1px; font-size: 1px;\">&nbsp;</td>",
   "</tr>",
   "</table>",
   "</td>",
   "</tr>",
   "<tr>",
   "<td align=\"center\" style=\"padding: 10px 20px 30px 20px; font-size: 12px; line-height: 18px; color: " ++
     footer_color ++ ";\">"] ++
  (if disclaimer != "" then [disclaimer ++ "<br>"] else []) ++
  (if copyright_text != "" then [copyright_text ++ "<br>"] else []) ++
  (if address != "" then [address ++ "<br><br>"] else []) ++
  ["<a href=\"" ++ unsubscribe_link ++ "\" target=\"_blank\" style=\"color: " ++ footer_color ++
     "; text-decoration: underline;\">Unsubscribe</a>",
   " &bull; <a href=\"" ++ view_online_link ++ "\" target=\"_blank\" style=\"color: " ++
     footer_color ++ "; text-decoration: underline;\">View Online</a>",
   "</td>",
   "</tr>"]

/-!  The complete document: `NewsletterGenerator.generate_html`
(app.py lines 246-324) with its keyword-argument defaults. -/

structure NewsletterDoc where
  subject : String := ""
  background_color : String := "#FFFFFF"
  text_color : String := "#000000"
  header_config : HeaderConfig := {}
  layers : List Layer := []
  footer_config : FooterConfig := {}
  subscription_config : Option SubscriptionConfig := none
  max_width : Int := 1000
  font_family : String := "Oswald, sans-serif"
deriving DecidableEq

/-- The Google Fonts stylesheet link emitted when `'Oswald' in font_family`. -/
def googleFontsLink : String :=
  "<link href=\"https://fonts.googleapis.com/css2?family=Oswald:wght@200;300;400;500;600;700&display=swap\" rel=\"stylesheet\">"

/-- The inner-table opening tag: the `max_width` value (bounds-checked by the
caller only) and the background color are rendered verbatim into the style
attribute (app.py lines 297-298). -/
def outerTableOpen (max_width : Int) (background_color : String) : String :=
  "<table role=\"presentation\" style=\"width: " ++ toString max_width ++
  "px; max-width: 100%; border-collapse: collapse; background-color: " ++
  background_color ++ "; margin: 0 auto;\">"

/-- The document parts before the header section (doctype, head with the
conditional font link, body and outer table shell), app.py lines 278-299. -/
def docHeadParts (d : NewsletterDoc) : List String :=
  ["<!DOCTYPE html>",
   "<html lang=\"en\">",
   "<head>",
   "<meta charset=\"UTF-8\">",
   "<meta name=\"viewport\" content=\"width=device-width, initial-scale=1.0\">",
   "<title>" ++ d.subject ++ "</title>"] ++
  (if pyInStr "Oswald" d.font_family then [googleFontsLink] else []) ++
  ["</head>",
   "<body style=\"margin: 0; padding: 0; font-family: " ++ d.font_family ++ "; background-color: #FFFFFF;\">",
   "<table role=\"presentation\" style=\"width: 100%; border-collapse: collapse; background-color: #FFFFFF;\">",
   "<tr>",
   "<td align=\"center\" style=\"padding: 20px 0;\">",
   outerTableOpen d.max_width d.background_color]

/-- The subscription section: present only for a truthy
`subscription_config` (app.py lines 310-312). -/
def subscriptionParts : Option SubscriptionConfig → List String
  | some sc => _generate_subscription_html sc
  | none => []

/-- The closing tags of the document (app.py lines 314-322). -/
def docCloseParts : List String :=
  ["</table>", "</td>", "</tr>", "</table>", "</body>", "</html>"]

/-- All parts of `generate_html`, in emission order (app.py lines 246-324). -/
def generate_html_parts (d : NewsletterDoc) : List String :=
  docHeadParts d ++
  _generate_header_html d.subject d.header_config ++
  (d.layers.map (fun layer => _generate_layer_html layer d.text_color)).flatten ++
  _generate_footer_html d.footer_config ++
  subscriptionParts d.subscription_config ++
  docCloseParts

/-- `NewsletterGenerator.generate_html`: the joined document string. -/
def generate_html (d : NewsletterDoc) : String := joinN (generate_html_parts d)

/-!  The layer-sorting step of `main` (app.py line 2770):
`layers = sorted(layers, key=lambda x: x.get('order', 999))`.  Python's
`sorted` is a stable ascending sort by key; it is modelled by the stable
`List.insertionSort` on the same key order. -/

def layerOrderKey (layer : Layer) : Int := layer.order.getD 999

def layerOrderLE (a b : Layer) : Prop := layerOrderKey a ≤ layerOrderKey b

instance : DecidableRel layerOrderLE := fun x y => Int.decLe (layerOrderKey x) (layerOrderKey y)

instance : IsTotal Layer layerOrderLE := ⟨fun x y => Int.le_total (layerOrderKey x) (layerOrderKey y)⟩

instance : IsTrans Layer layerOrderLE := ⟨fun _ _ _ h1 h2 => le_trans h1 h2⟩

def sortLayersByOrder (layers : List Layer) : List Layer :=
  List.insertionSort layerOrderLE layers

/-- The generation pipeline of `main`: sort the layers by `order`, then
call `generate_html` (app.py lines 2770 and 2792-2802). -/
def generateNewsletter (d : NewsletterDoc) : String :=
  generate_html { d with layers := sortLayersByOrder d.layers }

/-!  `ImageProcessor.convert_to_base64` (app.py lines 188-240).

The Pillow library is external to the repository; its two effectful steps are
abstracted: the outcome of `Image.open` is an input (`decoded`, an image
record on success, the exception message on failure), and the byte-level
encoder `img.save(...)` is a parameter `save` mapping an image and a save
specification (format and, for JPEG, the quality keyword) to bytes or an
exception message.  A decoded image is described by the two attributes the
code reads, `mode` and `format`; Pillow's `img.convert(m)` returns the image
with mode `m`.  Everything else — the PNG/JPEG branch, the declared-MIME test,
the mode normalisations, the base64 encoding and the data-URI shape — is
transcribed from the source. -/

structure PILImage where
  mode : String
  format : Option String := none
deriving DecidableEq

/-- Pillow `img.convert(m)`: the same image in pixel mode `m`. -/
def PILImage.convert (img : PILImage) (m : String) : PILImage := { img with mode := m }

/-- A save request: `format='PNG', optimize=True` or `format='JPEG', quality=q`. -/
inductive SaveSpec where
  | png
  | jpeg (quality : Int)
deriving DecidableEq

/-- The error raised/surfaced when image bytes cannot be decoded or
re-encoded, carrying the underlying cause (`str(e)`). -/
structure ImageProcessingError where
  cause : String
deriving DecidableEq

/-- The message the caller surfaces for an image processing failure
(`st.error(f"Error processing image: {str(e)}")`, app.py line 239). -/
def surfacedImageError (e : ImageProcessingError) : String :=
  "Error processing image: " ++ e.cause

/-- The standard base64 alphabet. -/
def base64Alphabet : List Char :=
  "ABCDEFGHIJKLMNOPQRSTUVWXYZabcdefghijklmnopqrstuvwxyz0123456789+/".data

/-- The base64 digit for a 6-bit value. -/
def base64Digit (n : Nat) : Char := base64Alphabet.getD n 'A'

/-- RFC 4648 base64 of a byte list (`base64.b64encode(...).decode('utf-8')`). -/
def base64Encode : List Nat → String
  | [] => ""
  | [b1] =>
    let x := b1 % 256
    ⟨[base64Digit (x / 4), base64Digit (x % 4 * 16), '=', '=']⟩
  | [b1, b2] =>
    let x := b1 % 256
    let y := b2 % 256
    ⟨[base64Digit (x / 4), base64Digit (x % 4 * 16 + y / 16), base64Digit (y % 16 * 4), '=']⟩
  | b1 :: b2 :: b3 :: rest =>
    let x := b1 % 256
    let y := b2 % 256
    let z := b3 % 256
    String.mk [base64Digit (x / 4), base64Digit (x % 4 * 16 + y / 16),
      base64Digit (y % 16 * 4 + z / 64), base64Digit (z % 64)] ++ base64Encode rest

/-- The PNG test of app.py line 210:
`image_file.type in ['image/png', 'image/PNG'] or img.format == 'PNG'`. -/
def isPngSource (fileType : String) (img : PILImage) : Bool :=
  (fileType == "image/png" || fileType == "image/PNG") || img.format == some "PNG"

/-- PNG-branch mode normalisation (app.py lines 216-222): convert to RGBA
unless the mode is already one of the alpha-capable `RGBA`, `LA`, `P`. -/
def pngNormalize (img : PILImage) : PILImage :=
  if !(img.mode == "RGBA" || img.mode == "LA" || img.mode == "P") then
    img.convert "RGBA"
  else img

/-- JPEG-branch mode normalisation (app.py lines 226-228): convert to RGB
unless the mode is already RGB. -/
def rgbNormalize (img : PILImage) : PILImage :=
  if img.mode != "RGB" then img.convert "RGB" else img

/-- Body of `ImageProcessor.convert_to_base64` (app.py lines 191-240) for a
present upload: decode, choose PNG or JPEG, normalise the pixel mode, encode,
and wrap the base64 payload in a data URI; any decode or encode exception is
caught and surfaced as an `ImageProcessingError` (the Python code shows the
message and returns `None`, i.e. the caller sees `Except.toOption`). -/
def convert_to_base64 (save : PILImage → SaveSpec → Except String (List Nat))
    (fileType : String) (decoded : Except String PILImage) :
    Except ImageProcessingError String :=
  match decoded with
  | .error cause => .error ⟨cause⟩
  | .ok img =>
    if isPngSource fileType img then
      match save (pngNormalize img) SaveSpec.png with
      | .error cause => .error ⟨cause⟩
      | .ok bytes => .ok ("data:image/png;base64," ++ base64Encode bytes)
    else
      match save (rgbNormalize img) (SaveSpec.jpeg 95) with
      | .error cause => .error ⟨cause⟩
      | .ok bytes => .ok ("data:image/jpeg;base64," ++ base64Encode bytes)

/-!  Generic facts about `'\n'.join`. -/

/-- The join of a non-empty list starts with its first element. -/
theorem joinN_startsWith (x : String) (l : List String) : ∃ r, joinN (x :: l) = x ++ r := by
  cases l with
  | nil => exact ⟨"", by simp [joinN]⟩
  | cons y t => exact ⟨"\n" ++ joinN (y :: t), by simp [joinN, String.append_assoc]⟩

/-- The join of a list that ends in `x` ends with `x`. -/
theorem joinN_endsWith (l : List String) (x : String) : ∃ i, joinN (l ++ [x]) = i ++ x := by
  induction l with
  | nil => exact ⟨"", by simp [joinN]⟩
  | cons a t ih =>
    cases t with
    | nil => exact ⟨a ++ "\n", by simp [joinN, String.append_assoc]⟩
    | cons b t2 =>
      obtain ⟨i, hi⟩ := ih
      refine ⟨a ++ "\n" ++ i, ?_⟩
      have h2 : joinN ((a :: b :: t2) ++ [x]) = a ++ "\n" ++ joinN ((b :: t2) ++ [x]) := rfl
      rw [h2, hi]
      simp [String.append_assoc]

/-- Every list element occurs verbatim inside the join. -/
theorem joinN_mem_infix (l : List String) (e : String) (he : e ∈ l) :
    ∃ p q, joinN l = p ++ e ++ q := by
  induction l with
  | nil => cases he
  | cons a t ih =>
    rcases List.mem_cons.mp he with rfl | hm
    · cases t with
      | nil => exact ⟨"", "", by simp [joinN]⟩
      | cons b t2 => exact ⟨"", "\n" ++ joinN (b :: t2), by simp [joinN, String.append_assoc]⟩
    · cases t with
      | nil => cases hm
      | cons b t2 =>
        obtain ⟨p, q, hpq⟩ := ih hm
        refine ⟨a ++ "\n" ++ p, q, ?_⟩
        have h2 : joinN (a :: b :: t2) = a ++ "\n" ++ joinN (b :: t2) := rfl
        rw [h2, hpq]
        simp [String.append_assoc]

/-- C3: for every fixed newsletter configuration, two calls of the HTML
generation function produce identical output strings.  `generate_html` is a
pure function of the `NewsletterDoc` value (the embedding has no clock,
random or I/O input, matching the source, whose generation path reads
nothing but its arguments), so generation is deterministic. -/
theorem generate_html_deterministic (d : NewsletterDoc) :
    generate_html d = generate_html d := rfl

/-- C8: HTML generation is total — for every configuration value, including
out-of-range `max_width` values, `generate_html` returns a complete document:
it starts with the doctype, ends with the closing `</html>` tag, and renders
the width style attribute verbatim inside. -/
theorem generate_html_total (d : NewsletterDoc) :
    (∃ r, generate_html d = "<!DOCTYPE html>" ++ r) ∧
    (∃ i, generate_html d = i ++ "</html>") ∧
    (∃ p q, generate_html d = p ++ outerTableOpen d.max_width d.background_color ++ q) := by
  refine ⟨?_, ?_, ?_⟩
  · obtain ⟨t, ht⟩ : ∃ t, generate_html_parts d = "<!DOCTYPE html>" :: t := ⟨_, rfl⟩
    rw [generate_html, ht]
    exact joinN_startsWith _ _
  · have ht : generate_html_parts d =
        (docHeadParts d ++ _generate_header_html d.subject d.header_config ++
          (d.layers.map (fun layer => _generate_layer_html layer d.text_color)).flatten ++
          _generate_footer_html d.footer_config ++ subscriptionParts d.subscription_config ++
          ["</table>", "</td>", "</tr>", "</table>", "</body>"]) ++ ["</html>"] := by
      simp [generate_html_parts, docCloseParts]
    rw [generate_html, ht]
    exact joinN_endsWith _ _
  · have hm : outerTableOpen d.max_width d.background_color ∈ generate_html_parts d := by
      simp [generate_html_parts, docHeadParts]
    exact joinN_mem_infix _ _ hm

/-- C6: for every successfully encoded embedded image, a PNG source (by
declared MIME type or decoded format) is re-encoded as PNG after conversion
to an alpha-capable pixel mode (already alpha-capable modes are left
untouched, so transparency is preserved), any other source is normalised to
opaque RGB and re-encoded as JPEG at quality 95, and the result is a data URI
whose MIME type matches the chosen format. -/
theorem convert_to_base64_format
    (save : PILImage → SaveSpec → Except String (List Nat))
    (fileType : String) (img : PILImage) (bytesPng bytesJpeg : List Nat)
    (hp : save (pngNormalize img) SaveSpec.png = Except.ok bytesPng)
    (hj : save (rgbNormalize img) (SaveSpec.jpeg 95) = Except.ok bytesJpeg) :
    (isPngSource fileType img = true →
      convert_to_base64 save fileType (Except.ok img) =
        Except.ok ("data:image/png;base64," ++ base64Encode bytesPng) ∧
      (pngNormalize img).mode ∈ ["RGBA", "LA", "P"] ∧
      (img.mode ∈ ["RGBA", "LA", "P"] → pngNormalize img = img)) ∧
    (isPngSource fileType img = false →
      convert_to_base64 save fileType (Except.ok img) =
        Except.ok ("data:image/jpeg;base64," ++ base64Encode bytesJpeg) ∧
      (rgbNormalize img).mode = "RGB") := by
  constructor
  · intro hpng
    refine ⟨by simp [convert_to_base64, hpng, hp], ?_, ?_⟩
    · unfold pngNormalize
      split
      · simp [PILImage.convert]
      · rename_i hcond
        simp only [Bool.not_eq_true', Bool.not_eq_false] at hcond
        simp only [Bool.or_eq_true, beq_iff_eq] at hcond
        rcases hcond with (h | h) | h <;> simp [h]
    · intro hmem
      simp only [List.mem_cons, List.not_mem_nil, or_false] at hmem
      have hcond : (img.mode == "RGBA" || img.mode == "LA" || img.mode == "P") = true := by
        rcases hmem with h | h | h <;> simp [h]
      simp [pngNormalize, hcond]
  · intro hnot
    refine ⟨by simp [convert_to_base64, hnot, hj], ?_⟩
    unfold rgbNormalize
    split
    · simp [PILImage.convert]
    · rename_i hcond
      simp only [bne_iff_ne, ne_eq, not_not] at hcond
      simp [hcond]

/-- A save function used for concrete instantiations. -/
def save0 : PILImage → SaveSpec → Except String (List Nat) := fun _ _ => Except.ok []

/-- A decoded image with opaque pixels but PNG format. -/
def imgP : PILImage := { mode := "RGB", format := some "PNG" }

/-- Witness for C6: a concrete PNG-format image goes down the PNG branch
with an alpha-capable mode. -/
theorem convert_to_base64_format_witness :
    (isPngSource "image/png" imgP = true) ∧
    (convert_to_base64 save0 "image/png" (Except.ok imgP) =
        Except.ok ("data:image/png;base64," ++ base64Encode []) ∧
      (pngNormalize imgP).mode ∈ ["RGBA", "LA", "P"] ∧
      (imgP.mode ∈ ["RGBA", "LA", "P"] → pngNormalize imgP = imgP)) :=
  ⟨by decide,
    (convert_to_base64_format save0 "image/png" imgP [] [] rfl rfl).1 (by decide)⟩

/-- The no-image (text-only) layer layout: the fallthrough branch of
`_generate_layer_html` (app.py lines 453-466). -/
def layerNoImageHtml (layer : Layer) (text_color : String) : List String :=
  ["<tr>",
   "<td style=\"padding: " ++ toString (layer.padding.getD 30) ++ "px 20px;\">",
   "<table role=\"presentation\" style=\"width: 100%; border-collapse: collapse;\">",
   "<tr>"] ++
  textCell tdTextFull (pyStrip (layer.link_url.getD "") != "")
    (pyStrip (layer.link_url.getD "")) (layerTextParts layer text_color) ++
  ["</tr>", "</table>", "</td>", "</tr>"]

/-- C7: when image bytes cannot be decoded — and likewise when a decoded
image cannot be re-encoded in the chosen format — `convert_to_base64` fails
with an `ImageProcessingError` carrying the underlying cause, which the
caller surfaces; the affected layer (whose stored image is then absent)
renders in the no-image text-only layout; and the whole document is still
produced in full, with every other section rendered unchanged. -/
theorem image_error_graceful :
    (∀ (save : PILImage → SaveSpec → Except String (List Nat)) (fileType cause : String),
      convert_to_base64 save fileType (Except.error cause) = Except.error ⟨cause⟩ ∧
      surfacedImageError ⟨cause⟩ = "Error processing image: " ++ cause) ∧
    (∀ (save : PILImage → SaveSpec → Except String (List Nat)) (fileType cause : String)
      (img : PILImage),
      (isPngSource fileType img = true →
        save (pngNormalize img) SaveSpec.png = Except.error cause →
        convert_to_base64 save fileType (Except.ok img) = Except.error ⟨cause⟩) ∧
      (isPngSource fileType img = false →
        save (rgbNormalize img) (SaveSpec.jpeg 95) = Except.error cause →
        convert_to_base64 save fileType (Except.ok img) = Except.error ⟨cause⟩)) ∧
    (∀ (layer : Layer) (text_color : String), layerImageSrc layer = none →
      _generate_layer_html layer text_color = layerNoImageHtml layer text_color) ∧
    (∀ (d : NewsletterDoc) (pre post : List Layer) (failing : Layer)
      (save : PILImage → SaveSpec → Except String (List Nat)) (fileType : String)
      (decoded : Except String PILImage) (err : ImageProcessingError),
      convert_to_base64 save fileType decoded = Except.error err →
      failing.image_url = none →
      failing.image_base64 = (convert_to_base64 save fileType decoded).toOption →
      generate_html_parts { d with layers := pre ++ failing :: post } =
        docHeadParts d ++
        _generate_header_html d.subject d.header_config ++
        ((pre.map (fun l => _generate_layer_html l d.text_color)).flatten ++
          layerNoImageHtml failing d.text_color ++
          (post.map (fun l => _generate_layer_html l d.text_color)).flatten) ++
        _generate_footer_html d.footer_config ++
        subscriptionParts d.subscription_config ++
        docCloseParts) := by
  have hfall : ∀ (layer : Layer) (text_color : String), layerImageSrc layer = none →
      _generate_layer_html layer text_color = layerNoImageHtml layer text_color := by
    intro layer text_color h
    simp [_generate_layer_html, layerNoImageHtml, h]
  have hkind : ∀ (save : PILImage → SaveSpec → Except String (List Nat))
      (fileType cause : String) (img : PILImage),
      (isPngSource fileType img = true →
        save (pngNormalize img) SaveSpec.png = Except.error cause →
        convert_to_base64 save fileType (Except.ok img) = Except.error ⟨cause⟩) ∧
      (isPngSource fileType img = false →
        save (rgbNormalize img) (SaveSpec.jpeg 95) = Except.error cause →
        convert_to_base64 save fileType (Except.ok img) = Except.error ⟨cause⟩) := by
    intro save fileType cause img
    constructor
    · intro hpng hsave
      simp [convert_to_base64, hpng, hsave]
    · intro hnot hsave
      simp [convert_to_base64, hnot, hsave]
  refine ⟨fun save fileType cause => ⟨rfl, rfl⟩, hkind, hfall, ?_⟩
  intro d pre post failing save fileType decoded err hconv hu hb
  rw [hconv] at hb
  have hb2 : failing.image_base64 = none := hb
  have hsrc : layerImageSrc failing = none := by
    simp [layerImageSrc, hu, hb2, optNonempty]
  have hfail := hfall failing d.text_color hsrc
  have hG : generate_html_parts { d with layers := pre ++ failing :: post } =
      docHeadParts d ++
      _generate_header_html d.subject d.header_config ++
      ((pre ++ failing :: post).map (fun l => _generate_layer_html l d.text_color)).flatten ++
      _generate_footer_html d.footer_config ++
      subscriptionParts d.subscription_config ++
      docCloseParts := rfl
  rw [hG]
  simp [List.map_append, List.flatten_append, hfail, List.append_assoc]

/-- A document used for concrete instantiations. -/
def doc0 : NewsletterDoc := { subject := "S" }

/-- A save function that always fails, modelling an encoder exception. -/
def saveFail : PILImage → SaveSpec → Except String (List Nat) :=
  fun _ _ => Except.error "broken stream"

/-- A layer whose stored embedded image is the (`None`) result of a
`convert_to_base64` call that failed while re-encoding a decoded image, and
which has no external URL. -/
def failingEnc : Layer :=
  { image_base64 := (convert_to_base64 saveFail "image/png" (Except.ok imgP)).toOption }

/-- Witness for C7: a concrete decode failure and a concrete re-encode
failure each carry their cause, and the document containing the layer
affected by the encode failure is still produced in full, with the layer in
its text-only layout. -/
theorem image_error_graceful_witness :
    (convert_to_base64 save0 "image/png" (Except.error "boom") = Except.error ⟨"boom"⟩) ∧
    (convert_to_base64 saveFail "image/png" (Except.ok imgP) =
      Except.error ⟨"broken stream"⟩) ∧
    generate_html_parts { doc0 with layers := [] ++ failingEnc :: [] } =
      docHeadParts doc0 ++
      _generate_header_html doc0.subject doc0.header_config ++
      ((([] : List Layer).map (fun l => _generate_layer_html l doc0.text_color)).flatten ++
        layerNoImageHtml failingEnc doc0.text_color ++
        (([] : List Layer).map (fun l => _generate_layer_html l doc0.text_color)).flatten) ++
      _generate_footer_html doc0.footer_config ++
      subscriptionParts doc0.subscription_config ++
      docCloseParts := by
  have henc : convert_to_base64 saveFail "image/png" (Except.ok imgP) =
      Except.error ⟨"broken stream"⟩ :=
    (image_error_graceful.2.1 saveFail "image/png" "broken stream" imgP).1 (by decide) rfl
  exact ⟨(image_error_graceful.1 save0 "image/png" "boom").1, henc,
    image_error_graceful.2.2.2 doc0 [] [] failingEnc saveFail "image/png"
      (Except.ok imgP) ⟨"broken stream"⟩ henc rfl rfl⟩

/-- C2: with pairwise-distinct `order` keys, the sorted layer list of the
generation pipeline is strictly ascending in `order`; the sorted list — and
hence the generated newsletter — is invariant under permutation of the
input layer list. -/
theorem layer_order_invariant (layers : List Layer)
    (hd : layers.Pairwise (fun a b => layerOrderKey a ≠ layerOrderKey b)) :
    List.Sorted (fun a b => layerOrderKey a < layerOrderKey b) (sortLayersByOrder layers) ∧
    (∀ layersB : List Layer, layersB.Perm layers →
      sortLayersByOrder layersB = sortLayersByOrder layers) ∧
    (∀ (d : NewsletterDoc) (layersB : List Layer), layersB.Perm layers → d.layers = layers →
      generateNewsletter { d with layers := layersB } = generateNewsletter d) := by
  have hsym : ∀ {a b : Layer}, layerOrderKey a ≠ layerOrderKey b →
      layerOrderKey b ≠ layerOrderKey a := fun h => Ne.symm h
  haveI hanti : IsAntisymm Layer (fun a b => layerOrderKey a < layerOrderKey b) :=
    ⟨fun _ _ h1 h2 => absurd (lt_trans h1 h2) (lt_irrefl _)⟩
  have strict : ∀ l : List Layer, l.Pairwise (fun a b => layerOrderKey a ≠ layerOrderKey b) →
      List.Sorted (fun a b => layerOrderKey a < layerOrderKey b) (sortLayersByOrder l) := by
    intro l hl
    have hs : List.Sorted layerOrderLE (sortLayersByOrder l) :=
      List.sorted_insertionSort layerOrderLE l
    have hperm : (sortLayersByOrder l).Perm l := List.perm_insertionSort layerOrderLE l
    have hp : (sortLayersByOrder l).Pairwise (fun a b => layerOrderKey a ≠ layerOrderKey b) :=
      (hperm.pairwise_iff hsym).2 hl
    exact (hs.and hp).imp (fun h => lt_of_le_of_ne h.1 h.2)
  have heq : ∀ layersB : List Layer, layersB.Perm layers →
      sortLayersByOrder layersB = sortLayersByOrder layers := by
    intro lB hpB
    have hdB : lB.Pairwise (fun a b => layerOrderKey a ≠ layerOrderKey b) :=
      (hpB.pairwise_iff hsym).2 hd
    have h1 : (sortLayersByOrder lB).Perm (sortLayersByOrder layers) :=
      ((List.perm_insertionSort layerOrderLE lB).trans hpB).trans
        (List.perm_insertionSort layerOrderLE layers).symm
    exact List.eq_of_perm_of_sorted h1 (strict lB hdB) (strict layers hd)
  refine ⟨strict layers hd, heq, ?_⟩
  intro d lB hpB hdl
  have hsort : sortLayersByOrder lB = sortLayersByOrder d.layers := by
    rw [hdl]; exact heq lB hpB
  show generate_html { d with layers := sortLayersByOrder lB } =
    generate_html { d with layers := sortLayersByOrder d.layers }
  rw [hsort]

/-- A layer with order 2. -/
def layA : Layer := { order := some 2, title := some "A" }

/-- A layer with order 1. -/
def layB : Layer := { order := some 1, title := some "B" }

/-- Witness for C2 at a concrete two-layer list and its transposition. -/
theorem layer_order_invariant_witness :
    List.Sorted (fun a b => layerOrderKey a < layerOrderKey b) (sortLayersByOrder [layA, layB]) ∧
    sortLayersByOrder [layB, layA] = sortLayersByOrder [layA, layB] ∧
    generateNewsletter { subject := "S", layers := [layB, layA] } =
      generateNewsletter { subject := "S", layers := [layA, layB] } := by
  have h := layer_order_invariant [layA, layB] (by decide)
  exact ⟨h.1, h.2.1 [layB, layA] (List.Perm.swap layA layB []),
    h.2.2 { subject := "S", layers := [layA, layB] } [layB, layA]
      (List.Perm.swap layA layB []) rfl⟩

/-- C4: a blank (empty or whitespace-only) pre-header text emits no hidden
pre-header row — the header consists of exactly its main rows; and an absent
subscription configuration emits no subscription block — the document is
exactly head, header, layers, footer and the closing tags. -/
theorem conditional_omission :
    (∀ (subject : String) (cfg : HeaderConfig),
      pyStrip (cfg.pre_header_text.getD "") = "" →
      _generate_header_html subject cfg = headerMainRows subject cfg) ∧
    (∀ d : NewsletterDoc, d.subscription_config = none →
      generate_html_parts d =
        docHeadParts d ++
        _generate_header_html d.subject d.header_config ++
        (d.layers.map (fun layer => _generate_layer_html layer d.text_color)).flatten ++
        _generate_footer_html d.footer_config ++
        docCloseParts) := by
  constructor
  · intro subject cfg h
    simp [_generate_header_html, h]
  · intro d h
    simp [generate_html_parts, subscriptionParts, h]

/-- A header whose pre-header text is whitespace-only. -/
def hdrBlankPre : HeaderConfig := { pre_header_text := some "   " }

/-- Witness for C4 at a concrete whitespace-only pre-header and a concrete
document without subscription configuration. -/
theorem conditional_omission_witness :
    _generate_header_html "T" hdrBlankPre = headerMainRows "T" hdrBlankPre ∧
    generate_html_parts doc0 =
      docHeadParts doc0 ++
      _generate_header_html doc0.subject doc0.header_config ++
      (doc0.layers.map (fun layer => _generate_layer_html layer doc0.text_color)).flatten ++
      _generate_footer_html doc0.footer_config ++
      docCloseParts :=
  ⟨conditional_omission.1 "T" hdrBlankPre (by decide),
   conditional_omission.2 doc0 rfl⟩

/-- Dropping a prefix of `p`-elements twice is the same as dropping it once. -/
theorem dropWhile_idem {α : Type} (p : α → Bool) (l : List α) :
    (l.dropWhile p).dropWhile p = l.dropWhile p := by
  induction l with
  | nil => simp
  | cons c t ih =>
    by_cases h : p c
    · simp [List.dropWhile_cons, h, ih]
    · simp [List.dropWhile_cons, h]

/-- A prefix of a list that starts with a non-`p` element also starts with a
non-`p` element. -/
theorem dropWhile_eq_self_of_prefix {α : Type} (p : α → Bool) {l₁ l₂ : List α}
    (hp : l₁ <+: l₂) (h : l₂.dropWhile p = l₂) : l₁.dropWhile p = l₁ := by
  cases l₁ with
  | nil => simp
  | cons a t =>
    obtain ⟨rest, hrest⟩ := hp
    by_cases hpa : p a
    · exfalso
      rw [← hrest, List.cons_append, List.dropWhile_cons, if_pos hpa] at h
      have hl := congrArg List.length h
      have hle := (List.dropWhile_suffix p (l := t ++ rest)).length_le
      simp [List.length_append] at hl hle
      omega
    · simp [List.dropWhile_cons, hpa]

/-- Python `strip` is idempotent. -/
theorem pyStrip_idem (s : String) : pyStrip (pyStrip s) = pyStrip s := by
  cases s with
  | mk l =>
    show String.mk _ = String.mk _
    congr 1
    have hm : (l.dropWhile pyIsSpace).dropWhile pyIsSpace = l.dropWhile pyIsSpace :=
      dropWhile_idem pyIsSpace l
    set m := l.dropWhile pyIsSpace with hmdef
    set s2 := m.reverse.dropWhile pyIsSpace with hs2def
    have hr_pref : s2.reverse <+: m := by
      have h1 : s2 <:+ m.reverse := List.dropWhile_suffix pyIsSpace
      have h2 := List.reverse_prefix.mpr h1
      rwa [List.reverse_reverse] at h2
    have hstep1 : s2.reverse.dropWhile pyIsSpace = s2.reverse :=
      dropWhile_eq_self_of_prefix pyIsSpace hr_pref hm
    have hstep2 : s2.dropWhile pyIsSpace = s2 := by
      rw [hs2def]
      exact dropWhile_idem pyIsSpace m.reverse
    show ((s2.reverse.dropWhile pyIsSpace).reverse.dropWhile pyIsSpace).reverse = s2.reverse
    rw [hstep1, List.reverse_reverse, hstep2]

/-- A header configuration supplying both a non-blank external URL and
embedded base64 data. -/
def hdrBoth : HeaderConfig :=
  { header_image_url := some "https://logo.example/u.png",
    header_image_base64 := some "data:image/png;base64,QUJD" }

/-- Counterexample to C1 as stated: in the header renderer the embedded
base64 value wins over the supplied non-blank external URL — the emitted img
src is the data URI, and the external URL appears nowhere in the header
fragments. -/
theorem image_precedence_counterexample :
    headerImageSrc hdrBoth = some "data:image/png;base64,QUJD" ∧
    "<img src=\"data:image/png;base64,QUJD\" alt=\"S\" style=\"width: 100%; max-width: 600px; height: auto; display: block; margin: 0; padding: 0;\">"
      ∈ _generate_header_html "S" hdrBoth ∧
    ((_generate_header_html "S" hdrBoth).all
      (fun s => !(pyInStr "https://logo.example/u.png" s))) = true := by
  refine ⟨rfl, ?_, by decide⟩
  decide

/-- C1 (amended): the layer renderer resolves a non-blank external URL (after
trimming) with precedence over any embedded data, and the emitted layer img
tag uses the trimmed URL; the header and footer renderers resolve in the
opposite order — non-empty embedded base64 wins, and the external URL is used
verbatim only when the embedded value is absent or empty. -/
theorem image_precedence_amended :
    (∀ (layer : Layer) (text_color u : String),
      layer.image_url = some u → pyStrip u ≠ "" →
      layerImageSrc layer = some (pyStrip u) ∧
      (pyLower (layer.image_alignment.getD "left") = "left" →
        layerImg (pyStrip u) (layerAltTitle layer) (layer.image_width.getD 210) ∈
          _generate_layer_html layer text_color)) ∧
    (∀ (cfg : HeaderConfig) (b : String),
      cfg.header_image_base64 = some b → b ≠ "" → headerImageSrc cfg = some b) ∧
    (∀ (cfg : HeaderConfig) (u : String),
      strOptTruthy cfg.header_image_base64 = false →
      cfg.header_image_url = some u → u ≠ "" → headerImageSrc cfg = some u) ∧
    (∀ (cfg : FooterConfig) (b : String),
      cfg.footer_image_base64 = some b → b ≠ "" → footerImageSrc cfg = some b) ∧
    (∀ (cfg : FooterConfig) (u : String),
      strOptTruthy cfg.footer_image_base64 = false →
      cfg.footer_image_url = some u → u ≠ "" → footerImageSrc cfg = some u) := by
  refine ⟨?_, ?_, ?_, ?_, ?_⟩
  · intro layer text_color u hurl htrim
    have hu : u ≠ "" := by
      rintro rfl
      exact htrim rfl
    have hsrc : layerImageSrc layer = some (pyStrip u) := by
      simp [layerImageSrc, hurl, hu, htrim]
    refine ⟨hsrc, ?_⟩
    intro halign
    have hcond1 : pyStrip (pyStrip u) ≠ "" := by rw [pyStrip_idem]; exact htrim
    by_cases hl : pyStrip (layer.link_url.getD "") != "" <;>
      simp [_generate_layer_html, hsrc, htrim, hcond1, halign, imageCell, hl]
  · intro cfg b hb hne
    simp [headerImageSrc, strOptTruthy, hb, hne]
  · intro cfg u hfalse hu hne
    unfold headerImageSrc
    rw [hfalse, hu]
    simp [strOptTruthy, hne]
  · intro cfg b hb hne
    simp [footerImageSrc, strOptTruthy, hb, hne]
  · intro cfg u hfalse hu hne
    unfold footerImageSrc
    rw [hfalse, hu]
    simp [strOptTruthy, hne]

/-- A layer supplying both an external URL (with surrounding whitespace) and
embedded base64 data. -/
def layBoth : Layer :=
  { image_url := some " https://u.test/i.png ",
    image_base64 := some "data:image/jpeg;base64,Lw==" }

/-- A footer configuration supplying both an external URL and embedded data. -/
def ftrBoth : FooterConfig :=
  { footer_image_url := some "https://f.test/f.png",
    footer_image_base64 := some "data:image/png;base64,QQ==" }

/-- Witness for the amended C1 at concrete layer, header and footer
configurations that each supply both image sources. -/
theorem image_precedence_amended_witness :
    (layerImageSrc layBoth = some (pyStrip " https://u.test/i.png ") ∧
      (pyLower (layBoth.image_alignment.getD "left") = "left" →
        layerImg (pyStrip " https://u.test/i.png ") (layerAltTitle layBoth)
          (layBoth.image_width.getD 210) ∈ _generate_layer_html layBoth "#000000")) ∧
    headerImageSrc hdrBoth = some "data:image/png;base64,QUJD" ∧
    footerImageSrc ftrBoth = some "data:image/png;base64,QQ==" :=
  ⟨image_precedence_amended.1 layBoth "#000000" " https://u.test/i.png " rfl (by decide),
   image_precedence_amended.2.1 hdrBoth "data:image/png;base64,QUJD" rfl (by decide),
   image_precedence_amended.2.2.2.1 ftrBoth "data:image/png;base64,QQ==" rfl (by decide)⟩

/-- A layer whose link URL is non-empty but whitespace-only. -/
def layBlankLink : Layer := { link_url := some " ", content := some "hello" }

/-- Counterexample to C5 as stated: with the non-empty link URL `" "`, no
fragment of the rendered layer contains an anchor at all (the code tests the
stripped URL, not the raw one). -/
theorem layer_link_counterexample :
    layBlankLink.link_url = some " " ∧ (" " : String) ≠ "" ∧
    ((_generate_layer_html layBlankLink "#000000").all
      (fun s => !(pyInStr "<a href=" s))) = true :=
  ⟨rfl, by decide, by decide⟩

/-- The four opening shell fragments of a layer (rows and inner table). -/
def layerShellOpen (layer : Layer) : List String :=
  ["<tr>",
   "<td style=\"padding: " ++ toString (layer.padding.getD 30) ++ "px 20px;\">",
   "<table role=\"presentation\" style=\"width: 100%; border-collapse: collapse;\">",
   "<tr>"]

/-- The four closing shell fragments of a layer. -/
def layerShellClose : List String := ["</tr>", "</table>", "</td>", "</tr>"]

/-- Every rendered layer contains exactly one text cell, opened with one of
the three text-cell openers, with the cell-level link flag of the layer. -/
theorem layer_html_has_textCell (layer : Layer) (text_color : String) :
    ∃ (pre post : List String) (tdo : String),
      tdo ∈ [tdTextFull, tdTextPlain, tdTextPadRight] ∧
      _generate_layer_html layer text_color =
        pre ++ textCell tdo (pyStrip (layer.link_url.getD "") != "")
          (pyStrip (layer.link_url.getD "")) (layerTextParts layer text_color) ++ post := by
  rcases hsrc : layerImageSrc layer with _ | src
  · exact ⟨layerShellOpen layer, layerShellClose, tdTextFull, by simp,
      by simp [_generate_layer_html, hsrc, layerShellOpen, layerShellClose]⟩
  · by_cases h1 : (src != "" && pyStrip src != "" &&
        (pyLower (layer.image_alignment.getD "left") == "left")) = true
    · refine ⟨layerShellOpen layer ++
        imageCell (tdImgLeft (layer.image_width.getD 210))
          (pyStrip (layer.link_url.getD "") != "") (pyStrip (layer.link_url.getD ""))
          (layerImg src (layerAltTitle layer) (layer.image_width.getD 210)),
        layerShellClose, tdTextPlain, by simp, ?_⟩
      simp [_generate_layer_html, hsrc, h1, layerShellOpen, layerShellClose, List.append_assoc]
    · by_cases h2 : (src != "" && pyStrip src != "" &&
          (pyLower (layer.image_alignment.getD "left") == "right")) = true
      · refine ⟨layerShellOpen layer,
          imageCell (tdImgRight (layer.image_width.getD 210))
            (pyStrip (layer.link_url.getD "") != "") (pyStrip (layer.link_url.getD ""))
            (layerImg src (layerAltTitle layer) (layer.image_width.getD 210)) ++
          layerShellClose, tdTextPadRight, by simp, ?_⟩
        simp [_generate_layer_html, hsrc, h1, h2, layerShellOpen, layerShellClose,
          List.append_assoc]
      · refine ⟨layerShellOpen layer, layerShellClose, tdTextFull, by simp, ?_⟩
        simp [_generate_layer_html, hsrc, h1, h2, layerShellOpen, layerShellClose]

/-- C5 (amended): for every layer whose link URL is non-blank (non-empty
after trimming), the text block is wrapped in its own anchor — href the
trimmed link URL, `target="_blank"`, `rel="noopener noreferrer"` — placed
directly inside the text cell; and when an image is rendered (left or right
alignment), the image too is wrapped in its own anchor directly inside the
image cell. -/
theorem layer_link_wraps (layer : Layer) (text_color : String)
    (h : pyStrip (layer.link_url.getD "") ≠ "") :
    (∃ tdo, tdo ∈ [tdTextFull, tdTextPlain, tdTextPadRight] ∧
      (tdo :: layerAnchorOpen (pyStrip (layer.link_url.getD "")) ::
        (layerTextParts layer text_color ++ ["</a>", "</td>"])) <:+:
        _generate_layer_html layer text_color) ∧
    (∀ src, layerImageSrc layer = some src → pyStrip src ≠ "" →
      (pyLower (layer.image_alignment.getD "left") = "left" →
        [tdImgLeft (layer.image_width.getD 210),
         layerAnchorOpen (pyStrip (layer.link_url.getD "")),
         layerImg src (layerAltTitle layer) (layer.image_width.getD 210),
         "</a>", "</td>"] <:+: _generate_layer_html layer text_color) ∧
      (pyLower (layer.image_alignment.getD "left") = "right" →
        [tdImgRight (layer.image_width.getD 210),
         layerAnchorOpen (pyStrip (layer.link_url.getD "")),
         layerImg src (layerAltTitle layer) (layer.image_width.getD 210),
         "</a>", "</td>"] <:+: _generate_layer_html layer text_color)) := by
  have hl : (pyStrip (layer.link_url.getD "") != "") = true := by simp [h]
  constructor
  · obtain ⟨pre, post, tdo, htdo, heq⟩ := layer_html_has_textCell layer text_color
    refine ⟨tdo, htdo, pre, post, ?_⟩
    rw [heq]
    simp [textCell, hl, List.append_assoc]
  · intro src hsrc hstrip
    have hsne : src ≠ "" := by
      rintro rfl
      exact hstrip rfl
    constructor
    · intro halign
      have h1 : (src != "" && pyStrip src != "" &&
          (pyLower (layer.image_alignment.getD "left") == "left")) = true := by
        simp [hsne, hstrip, halign]
      refine ⟨layerShellOpen layer,
        textCell tdTextPlain (pyStrip (layer.link_url.getD "") != "")
          (pyStrip (layer.link_url.getD "")) (layerTextParts layer text_color) ++
          layerShellClose, ?_⟩
      simp [_generate_layer_html, hsrc, h1, imageCell, hl, layerShellOpen,
        layerShellClose, List.append_assoc]
    · intro halign
      have h1 : (src != "" && pyStrip src != "" &&
          (pyLower (layer.image_alignment.getD "left") == "left")) = false := by
        simp [halign]
      have h2 : (src != "" && pyStrip src != "" &&
          (pyLower (layer.image_alignment.getD "left") == "right")) = true := by
        simp [hsne, hstrip, halign]
      refine ⟨layerShellOpen layer ++
        textCell tdTextPadRight (pyStrip (layer.link_url.getD "") != "")
          (pyStrip (layer.link_url.getD "")) (layerTextParts layer text_color),
        layerShellClose, ?_⟩
      simp [_generate_layer_html, hsrc, h1, h2, imageCell, hl, layerShellOpen,
        layerShellClose, List.append_assoc]

/-- A layer with a link URL, an image and text content. -/
def layW : Layer :=
  { link_url := some "https://x.test", image_url := some "https://img.test/i.png",
    content := some "hello", title := some "W" }

/-- Witness for the amended C5: at a concrete linked layer with a
left-aligned image, the image cell contains the image wrapped in its own
anchor with the trimmed link URL. -/
theorem layer_link_wraps_witness :
    [tdImgLeft 210, layerAnchorOpen "https://x.test",
     layerImg "https://img.test/i.png" (layerAltTitle layW) 210,
     "</a>", "</td>"] <:+: _generate_layer_html layW "#111111" := by
  have h := (layer_link_wraps layW "#111111" (by decide)).2
    "https://img.test/i.png" (by decide) (by decide)
  exact h.1 (by decide)

/-- Modelled from the spec (for comparison only): HTML-escaping of plain
text, which the specification asserts for non-markup body content. -/
def escapeHtml (s : String) : String :=
  pyReplace (pyReplace (pyReplace (pyReplace s "&" "&amp;") "<" "&lt;") ">" "&gt;") "\"" "&quot;"

/-- Counterexample to C9 as stated: body content `"1<2"` has no markup (no
`'>'`), and the code renders it verbatim inside the `<p>` element — the raw
`<` is not escaped to `&lt;`. -/
theorem layer_text_escape_counterexample :
    _generate_layer_text "" "" "" "1<2" "#000000" "#00925b" "#000000" "#000000"
        21 15 13 13 true true false =
      ["<p style=\"color: #000000; margin: 0; font-size: 13px; line-height: 1.5;\">1<2</p>"] ∧
    escapeHtml "1<2" = "1&lt;2" ∧
    pyInStr "&lt;"
      "<p style=\"color: #000000; margin: 0; font-size: 13px; line-height: 1.5;\">1<2</p>" =
      false :=
  ⟨by decide, by decide, by decide⟩

/-- The rendered title heading element. -/
def mkH2 (title title_color : String) (title_font_size : Int) (title_bold : Bool) : String :=
  "<h2 style=\"color: " ++ title_color ++ "; margin: 0 0 10px 0; font-size: " ++
  toString title_font_size ++ "px; font-weight: " ++ (if title_bold then "700" else "400") ++
  "; line-height: 1.2;\">" ++ title ++ "</h2>"

/-- The rendered subtitle heading element. -/
def mkH3 (subtitle subtitle_color : String) (subtitle_font_size : Int) (subtitle_bold : Bool) : String :=
  "<h3 style=\"color: " ++ subtitle_color ++ "; margin: 0 0 10px 0; font-size: " ++
  toString subtitle_font_size ++ "px; font-weight: " ++ (if subtitle_bold then "600" else "400") ++
  "; line-height: 1.4;\">" ++ subtitle ++ "</h3>"

/-- The rendered third-heading element. -/
def mkH4 (subtitle2 subtitle2_color : String) (subtitle2_font_size : Int) (subtitle2_bold : Bool) : String :=
  "<h4 style=\"color: " ++ subtitle2_color ++ "; margin: 0 0 15px 0; font-size: " ++
  toString subtitle2_font_size ++ "px; font-weight: " ++ (if subtitle2_bold then "500" else "400") ++
  "; line-height: 1.4;\">" ++ subtitle2 ++ "</h4>"

/-- The styled container opener wrapping rich-text (markup) body content. -/
def mkBodyDivOpen (content_color : String) (content_font_size : Int) : String :=
  "<div style=\"color: " ++ content_color ++ "; font-size: " ++
  toString content_font_size ++ "px; margin: 0; line-height: 1.5;\">"

/-- The paragraph element wrapping plain-text body content. -/
def mkBodyP (formatted_content content_color : String) (content_font_size : Int) : String :=
  "<p style=\"color: " ++ content_color ++ "; margin: 0; font-size: " ++
  toString content_font_size ++ "px; line-height: 1.5;\">" ++ formatted_content ++ "</p>"

/-- C9 (amended): each heading slot is rendered exactly when its text is
non-empty (the title as an `<h2>` element containing the title text);
non-empty body content with markup (both `<` and `>` present) is wrapped
verbatim, unescaped, in a styled `div` container; non-empty body content
without markup is rendered verbatim (not HTML-escaped) inside a `<p>`
element with each newline replaced by `<br>`. -/
theorem layer_text_rendering (title subtitle subtitle2 content : String)
    (title_color subtitle_color subtitle2_color content_color : String)
    (title_font_size subtitle_font_size subtitle2_font_size content_font_size : Int)
    (title_bold subtitle_bold subtitle2_bold : Bool) :
    _generate_layer_text title subtitle subtitle2 content
        title_color subtitle_color subtitle2_color content_color
        title_font_size subtitle_font_size subtitle2_font_size content_font_size
        title_bold subtitle_bold subtitle2_bold =
      (if title = "" then [] else [mkH2 title title_color title_font_size title_bold]) ++
      (if subtitle = "" then []
       else [mkH3 subtitle subtitle_color subtitle_font_size subtitle_bold]) ++
      (if subtitle2 = "" then []
       else [mkH4 subtitle2 subtitle2_color subtitle2_font_size subtitle2_bold]) ++
      (if content = "" then []
       else if content.data.contains '<' && content.data.contains '>' then
         [mkBodyDivOpen content_color content_font_size, content, "</div>"]
       else [mkBodyP (pyReplace content "\n" "<br>") content_color content_font_size]) := by
  simp only [_generate_layer_text, mkH2, mkH3, mkH4, mkBodyDivOpen, mkBodyP, bne_iff_ne,
    ne_eq, ite_not]

/-- The head region of the generated document: all parts strictly before the
closing `</head>` tag. -/
def headRegion (d : NewsletterDoc) : List String :=
  (generate_html_parts d).takeWhile (fun s => s != "</head>")

/-- The title element never equals the closing head tag (their lengths differ
for every subject). -/
theorem titleElem_ne_headClose (s : String) :
    ("<title>" ++ s ++ "</title>") ≠ "</head>" := by
  intro h
  have hl := congrArg String.length h
  rw [String.length_append, String.length_append] at hl
  have h1 : "<title>".length = 7 := rfl
  have h2 : "</title>".length = 8 := rfl
  have h3 : "</head>".length = 7 := rfl
  rw [h1, h2, h3] at hl
  omega

/-- The title element never equals the Google Fonts link (their second
characters differ for every subject). -/
theorem titleElem_ne_gfl (s : String) :
    ("<title>" ++ s ++ "</title>") ≠ googleFontsLink := by
  intro h
  have h2 := congrArg String.data h
  rw [String.data_append, String.data_append] at h2
  have e1 : "<title>".data = ['<', 't', 'i', 't', 'l', 'e', '>'] := rfl
  rw [e1] at h2
  have hL : ((['<', 't', 'i', 't', 'l', 'e', '>'] ++ s.data) ++ "</title>".data).get? 1 =
      some 't' := rfl
  rw [h2] at hL
  have hR : googleFontsLink.data.get? 1 = some 'l' := rfl
  rw [hR] at hL
  exact absurd hL (by decide)

/-- The head region consists of the five fixed head parts, the title element,
and — exactly when `'Oswald'` occurs in the font family — the font link. -/
theorem headRegion_eq (d : NewsletterDoc) :
    headRegion d =
      ["<!DOCTYPE html>", "<html lang=\"en\">", "<head>", "<meta charset=\"UTF-8\">",
       "<meta name=\"viewport\" content=\"width=device-width, initial-scale=1.0\">",
       "<title>" ++ d.subject ++ "</title>"] ++
      (if pyInStr "Oswald" d.font_family then [googleFontsLink] else []) := by
  have ht : (("<title>" ++ d.subject ++ "</title>") != "</head>") = true := by
    simp only [bne_iff_ne, ne_eq]
    exact titleElem_ne_headClose d.subject
  unfold headRegion generate_html_parts docHeadParts
  by_cases hos : pyInStr "Oswald" d.font_family <;>
    simp [hos, List.takeWhile_cons, ht, googleFontsLink]

/-- C10: the generated document's head contains the external Google Fonts
stylesheet link exactly when `'Oswald'` occurs as a substring of the selected
font family; for any other font selection no element of the head region is a
stylesheet link at all. -/
theorem google_fonts_link_iff (d : NewsletterDoc) :
    (googleFontsLink ∈ headRegion d ↔ pyInStr "Oswald" d.font_family = true) ∧
    (∀ s ∈ headRegion d, "<link".data.isPrefixOf s.data = true →
      pyInStr "Oswald" d.font_family = true) := by
  have hreq := headRegion_eq d
  constructor
  · constructor
    · intro hmem
      by_contra hos
      rw [Bool.not_eq_true] at hos
      rw [hreq] at hmem
      simp [hos, googleFontsLink] at hmem
      exact titleElem_ne_gfl d.subject hmem.symm
    · intro hos
      rw [hreq]
      simp [hos]
  · intro s hs hpref
    by_contra hos
    rw [Bool.not_eq_true] at hos
    rw [hreq] at hs
    simp [hos] at hs
    rcases hs with h | h | h | h | h | h <;> subst h
    · exact absurd hpref (by decide)
    · exact absurd hpref (by decide)
    · exact absurd hpref (by decide)
    · exact absurd hpref (by decide)
    · exact absurd hpref (by decide)
    · have hfalse : ("<link".data.isPrefixOf
          (("<title>" ++ d.subject ++ "</title>").data)) = false := rfl
      rw [hfalse] at hpref
      exact absurd hpref (by decide)

/-- Witness for C10: the default Oswald font family makes the font link a
member of the head region, and that membership (the link is an element
starting with `<link`) forces the Oswald test to be true. -/
theorem google_fonts_link_iff_witness :
    googleFontsLink ∈ headRegion doc0 ∧ pyInStr "Oswald" doc0.font_family = true := by
  have hmem : googleFontsLink ∈ headRegion doc0 :=
    (google_fonts_link_iff doc0).1.2 (by decide)
  exact ⟨hmem, (google_fonts_link_iff doc0).2 googleFontsLink hmem (by decide)⟩
